import Mathlib

/-!
# Verification of `mozsvcdeploy.util` (picl-server deployment utilities)

A shallow embedding, in Lean 4, of the polling and cleanup core of
`src/deployment/mozsvcdeploy/mozsvcdeploy/util.py`:

* `wait_for_status` — the blocking status-polling primitive (embedded with an
  explicit fuel bound and a discrete wall clock: the n-th loop iteration
  samples at time `n * sleep_time` after the call starts, since the loop
  sleeps `sleep_time` between samples and everything else is instantaneous);
* `wait_for_instance_ready` — status polling followed by a port-connectivity
  loop, with the same discrete clock;
* `cleanup_context` — the scoped cleanup ledger: `add`, and `__exit__`'s
  candidate selection, priority sort and best-effort destruction loop,
  embedded as a pure function from the ledger, the exception triple and an
  oracle describing which destruction calls raise, to the trace of calls made.

Machine-level caveats of the source are preserved: Python evaluates the
default argument of `getattr(obj, "status", obj.update())` eagerly, so
`update()` is called unconditionally on every iteration; `wait_for_status`
called from `_cleanup_resource` receives the *default* timeout `5*60`;
the connectivity loop of `wait_for_instance_ready` checks the deadline
computed at the start of the whole function.
-/

namespace Mozsvcdeploy

/-! ## Resources and the cleanup ledger data model -/

/-- The three boto resource classes named in the static ordering table of
`cleanup_context._sortkey_for_cleanup_ordering`, plus a tag for any resource
of a class not in the table. -/
inductive ResourceKind where
  | Instance
  | Volume
  | Snapshot
  | Unrecognized
deriving DecidableEq

/-- A cloud resource as the ledger sees it: an identity, its class (for the
ordering table) and which of the optional capabilities `terminate` / `delete`
it exposes (Python probes them with `hasattr`). -/
structure Resource where
  rid : Nat
  kind : ResourceKind
  hasTerminate : Bool
  hasDelete : Bool
deriving DecidableEq

/-- The tuple `ordered_classes` of `_sortkey_for_cleanup_ordering`:
`(boto.ec2.instance.Instance, boto.ec2.volume.Volume, boto.ec2.snapshot.Snapshot)`. -/
def ordered_classes : List ResourceKind :=
  [ResourceKind.Instance, ResourceKind.Volume, ResourceKind.Snapshot]

/-- `cleanup_context._sortkey_for_cleanup_ordering`: the index of the first
class of `ordered_classes` the resource is an instance of; when the loop
falls through, Python returns `i + 1` where `i` is the index of the last
table entry, i.e. `ordered_classes.length` (= 3). -/
def sortkey_for_cleanup_ordering (r : Resource) : Nat :=
  match ordered_classes.findIdx? (fun cls => r.kind == cls) with
  | some i => i
  | none => ordered_classes.length

/-- The comparison `sort(key=self._sortkey_for_cleanup_ordering)` sorts by:
lower sort key first. -/
def cleanupLE (a b : Resource) : Bool :=
  decide (sortkey_for_cleanup_ordering a ≤ sortkey_for_cleanup_ordering b)

/-- The ledger state: `self.resources`, a list of
`(resource, keep_on_success, keep_on_error)` triples in registration order. -/
structure cleanup_context where
  resources : List (Resource × Bool × Bool)
deriving DecidableEq

/-- `cleanup_context.__init__`: the ledger starts empty. -/
def cleanup_context.new : cleanup_context := ⟨[]⟩

/-- `cleanup_context.add`: append one `(resource, keep_on_success,
keep_on_error)` triple; Python's defaults for the two flags are `False`. -/
def cleanup_context.add (c : cleanup_context) (resource : Resource)
    (keep_on_success keep_on_error : Bool) : cleanup_context :=
  ⟨c.resources ++ [(resource, keep_on_success, keep_on_error)]⟩

/-- A stand-in for a Python exception object / type / traceback passed to
`__exit__`; only presence matters to the code. -/
inductive PyExc where
  | mk (code : Nat)
deriving DecidableEq

/-- `__exit__`'s success test: `exc_typ is None and exc_val is None and
exc_tb is None`. -/
def isSuccessExit (exc_typ exc_val exc_tb : Option PyExc) : Bool :=
  exc_typ.isNone && exc_val.isNone && exc_tb.isNone

/-- The candidate selection of `__exit__`:
`[r[0] for r in self.resources if not r[1]]` on a success exit,
`[r[0] for r in self.resources if not r[2]]` otherwise. -/
def to_cleanup (c : cleanup_context) (exc_typ exc_val exc_tb : Option PyExc) :
    List Resource :=
  if isSuccessExit exc_typ exc_val exc_tb then
    (c.resources.filter (fun r => !r.2.1)).map (fun r => r.1)
  else
    (c.resources.filter (fun r => !r.2.2)).map (fun r => r.1)

/-- `to_cleanup.sort(key=self._sortkey_for_cleanup_ordering)`: Python's
`list.sort` is a stable sort; `List.mergeSort` is the stable sort of the
Lean library. -/
def sorted_to_cleanup (c : cleanup_context) (exc_typ exc_val exc_tb : Option PyExc) :
    List Resource :=
  (to_cleanup c exc_typ exc_val exc_tb).mergeSort cleanupLE

/-! ## Characterizing the stable priority sort -/

theorem sortkey_instance (r : Resource) (h : r.kind = ResourceKind.Instance) :
    sortkey_for_cleanup_ordering r = 0 := by
  simp [sortkey_for_cleanup_ordering, ordered_classes, h, List.findIdx?]

theorem sortkey_volume (r : Resource) (h : r.kind = ResourceKind.Volume) :
    sortkey_for_cleanup_ordering r = 1 := by
  simp [sortkey_for_cleanup_ordering, ordered_classes, h, List.findIdx?]

theorem sortkey_snapshot (r : Resource) (h : r.kind = ResourceKind.Snapshot) :
    sortkey_for_cleanup_ordering r = 2 := by
  simp [sortkey_for_cleanup_ordering, ordered_classes, h, List.findIdx?]

theorem sortkey_unrecognized (r : Resource) (h : r.kind = ResourceKind.Unrecognized) :
    sortkey_for_cleanup_ordering r = 3 := by
  simp [sortkey_for_cleanup_ordering, ordered_classes, h, List.findIdx?]

theorem sortkey_le_three (r : Resource) : sortkey_for_cleanup_ordering r ≤ 3 := by
  obtain ⟨rid, k, ht, hd⟩ := r
  cases k <;> simp [sortkey_for_cleanup_ordering, ordered_classes, List.findIdx?]

theorem cleanupLE_trans (a b c : Resource)
    (hab : cleanupLE a b) (hbc : cleanupLE b c) : cleanupLE a c := by
  simp only [cleanupLE, decide_eq_true_eq] at hab hbc ⊢
  omega

theorem cleanupLE_total (a b : Resource) : cleanupLE a b || cleanupLE b a := by
  simp only [cleanupLE, Bool.or_eq_true, decide_eq_true_eq]
  omega

/-- Membership in a by-key filter pins the sort key down. -/
theorem key_of_mem_filter {i : Nat} {l : List Resource} {a : Resource}
    (h : a ∈ l.filter (fun r => sortkey_for_cleanup_ordering r == i)) :
    sortkey_for_cleanup_ordering a = i := by
  have := List.of_mem_filter h
  simpa using this

/-- A list that is sorted by the cleanup key, all of whose keys are ≤ 3,
is the concatenation of its key-0, key-1, key-2 and key-3 sublists. -/
theorem sorted_eq_filter_concat :
    ∀ (s : List Resource), s.Pairwise (fun a b => cleanupLE a b = true) →
    s = s.filter (fun r => sortkey_for_cleanup_ordering r == 0)
      ++ s.filter (fun r => sortkey_for_cleanup_ordering r == 1)
      ++ s.filter (fun r => sortkey_for_cleanup_ordering r == 2)
      ++ s.filter (fun r => sortkey_for_cleanup_ordering r == 3)
  | [], _ => rfl
  | a :: t, hp => by
    rw [List.pairwise_cons] at hp
    obtain ⟨ha, ht⟩ := hp
    have ih := sorted_eq_filter_concat t ht
    have hbound := sortkey_le_three a
    have hcases : sortkey_for_cleanup_ordering a = 0 ∨ sortkey_for_cleanup_ordering a = 1
        ∨ sortkey_for_cleanup_ordering a = 2 ∨ sortkey_for_cleanup_ordering a = 3 := by
      omega
    have hmemle : ∀ b ∈ t, sortkey_for_cleanup_ordering a ≤ sortkey_for_cleanup_ordering b := by
      intro b hb
      have := ha b hb
      simpa [cleanupLE] using this
    have hnil : ∀ i : Nat, i < sortkey_for_cleanup_ordering a →
        t.filter (fun r => sortkey_for_cleanup_ordering r == i) = [] := by
      intro i hi
      apply List.filter_eq_nil_iff.mpr
      intro b hb
      have := hmemle b hb
      simp only [beq_iff_eq]
      omega
    rcases hcases with h0 | h1 | h2 | h3
    · conv_lhs => rw [ih]
      simp [List.filter_cons, h0, List.append_assoc]
    · have e0 := hnil 0 (by omega)
      conv_lhs => rw [ih]
      simp [List.filter_cons, h1, e0, List.append_assoc]
    · have e0 := hnil 0 (by omega)
      have e1 := hnil 1 (by omega)
      conv_lhs => rw [ih]
      simp [List.filter_cons, h2, e0, e1, List.append_assoc]
    · have e0 := hnil 0 (by omega)
      have e1 := hnil 1 (by omega)
      have e2 := hnil 2 (by omega)
      conv_lhs => rw [ih]
      simp [List.filter_cons, h3, e0, e1, e2, List.append_assoc]

/-- Stability: the key-`i` sublist of the merge-sorted list is the key-`i`
sublist of the input, in the input's order. -/
theorem mergeSort_filter_key (l : List Resource) (i : Nat) :
    (l.mergeSort cleanupLE).filter (fun r => sortkey_for_cleanup_ordering r == i)
      = l.filter (fun r => sortkey_for_cleanup_ordering r == i) := by
  set p : Resource → Bool := fun r => sortkey_for_cleanup_ordering r == i with hp
  have hpair : (l.filter p).Pairwise (fun a b => cleanupLE a b = true) := by
    apply List.pairwise_of_forall_mem_list
    intro a hamem b hbmem
    have hka : sortkey_for_cleanup_ordering a = i := key_of_mem_filter hamem
    have hkb : sortkey_for_cleanup_ordering b = i := key_of_mem_filter hbmem
    simp [cleanupLE, hka, hkb]
  have hsub : List.Sublist (l.filter p) (l.mergeSort cleanupLE) :=
    List.sublist_mergeSort cleanupLE_trans cleanupLE_total hpair (List.filter_sublist l)
  have hsub2 : List.Sublist (l.filter p) ((l.mergeSort cleanupLE).filter p) := by
    have := List.Sublist.filter p hsub
    rwa [List.filter_filter, (by simp : (fun a => p a && p a) = p)] at this
  have hperm : List.Perm ((l.mergeSort cleanupLE).filter p) (l.filter p) :=
    (List.mergeSort_perm l cleanupLE).filter p
  have hlen : (l.filter p).length = ((l.mergeSort cleanupLE).filter p).length :=
    (hperm.length_eq).symm
  exact (hsub2.eq_of_length hlen).symm

/-- Python's stable sort by the cleanup key groups the list into the four
priority classes, preserving input order inside each class. -/
theorem mergeSort_cleanup_eq (l : List Resource) :
    l.mergeSort cleanupLE
      = l.filter (fun r => sortkey_for_cleanup_ordering r == 0)
      ++ l.filter (fun r => sortkey_for_cleanup_ordering r == 1)
      ++ l.filter (fun r => sortkey_for_cleanup_ordering r == 2)
      ++ l.filter (fun r => sortkey_for_cleanup_ordering r == 3) := by
  have hsorted : (l.mergeSort cleanupLE).Pairwise (fun a b => cleanupLE a b = true) :=
    List.sorted_mergeSort cleanupLE_trans cleanupLE_total l
  have h := sorted_eq_filter_concat (l.mergeSort cleanupLE) hsorted
  rw [mergeSort_filter_key, mergeSort_filter_key, mergeSort_filter_key,
    mergeSort_filter_key] at h
  exact h

/-! ## The destruction loop of `__exit__` as a call trace -/

/-- A call made on a resource during teardown, or a `logger.exception` record.
`waitCall` records the arguments `_cleanup_resource` passes to
`wait_for_status` (with Python's defaults `via=None`, `timeout=5*60`,
`sleep_time=5` filled in at the call). -/
inductive Event where
  | terminateCall (rid : Nat)
  | waitCall (rid : Nat) (status : String) (via : Option (List String))
      (timeout : Option Nat) (sleep_time : Nat)
  | deleteCall (rid : Nat)
  | logExceptionEvt (rid : Nat)
deriving DecidableEq

/-- Which of the destruction steps raise, per resource id: the environment
`__exit__`'s `try`/`except Exception` has to cope with. -/
structure DestroyOracle where
  terminateRaises : Nat → Bool
  waitRaises : Nat → Bool
  deleteRaises : Nat → Bool

/-- The oracle under which no destruction call raises. -/
def noFail : DestroyOracle := ⟨fun _ => false, fun _ => false, fun _ => false⟩

/-- `cleanup_context._cleanup_resource`: `if hasattr(resource, "terminate"):
resource.terminate(); wait_for_status(resource, "terminated")` then
`if hasattr(resource, "delete"): resource.delete()`.  Returns the calls made,
in order, and whether an exception escaped (a raising call still appears in
the trace: the call was made, then raised). -/
def cleanup_resource_run (o : DestroyOracle) (r : Resource) : List Event × Bool :=
  if r.hasTerminate then
    if o.terminateRaises r.rid then ([Event.terminateCall r.rid], true)
    else
      let pre := [Event.terminateCall r.rid,
        Event.waitCall r.rid "terminated" none (some (5 * 60)) 5]
      if o.waitRaises r.rid then (pre, true)
      else if r.hasDelete then (pre ++ [Event.deleteCall r.rid], o.deleteRaises r.rid)
      else (pre, false)
  else if r.hasDelete then ([Event.deleteCall r.rid], o.deleteRaises r.rid)
  else ([], false)

/-- What `__exit__` hands back to the interpreter: the calls made, and whether
the triggering exception is suppressed (Python suppresses it iff `__exit__`
returns a truthy value; this `__exit__` has no return statement, so it
returns `None`, which is falsy). -/
structure ExitResult where
  events : List Event
  suppressException : Bool
deriving DecidableEq

/-- `cleanup_context.__exit__`: select the candidates, sort them with the
stable priority sort, then destroy each in turn, catching and logging any
exception a single resource's destruction raises and continuing with the
rest. -/
def cleanup_exit (c : cleanup_context) (exc_typ exc_val exc_tb : Option PyExc)
    (o : DestroyOracle) : ExitResult :=
  let sorted := sorted_to_cleanup c exc_typ exc_val exc_tb
  let events := sorted.flatMap (fun r =>
    let run := cleanup_resource_run o r
    run.1 ++ if run.2 then [Event.logExceptionEvt r.rid] else [])
  { events := events, suppressException := false }

/-! ## The poller `wait_for_status` -/

/-- A boto API object as `wait_for_status` sees it: whether it has an
`update` method, whether it has a `status` attribute, and the status the n-th
sample observes (for objects with a `status` attribute, `update()` writes it;
for the others, `update()` returns it — either way sample n reads
`statusAt n`). -/
structure PollObj where
  hasUpdate : Bool
  hasStatusAttr : Bool
  statusAt : Nat → String

/-- How one call to `wait_for_status` ends. `unexpectedStatus` carries the
string interpolated into the `logger.warn` call and the string interpolated
into the `RuntimeError` message — the source interpolates `status` (the
target) into both. -/
inductive PollOutcome where
  | success
  | unexpectedStatus (warnArg : String) (errArg : String)
  | timedOut
  | attributeError
deriving DecidableEq

/-- The check `timeout is not None and time.time() >= max_time` at the n-th
iteration: the n-th sample is taken at `n * sleep_time` seconds after the
call started (the loop sleeps `sleep_time` between samples), and
`max_time = start + timeout`. -/
def timeoutHit (timeout : Option Nat) (sleep_time n : Nat) : Bool :=
  match timeout with
  | none => false
  | some t => decide (n * sleep_time ≥ t)

/-- One iteration of the `while True` loop of `wait_for_status`, at iteration
index n.  Returns how many `update()` invocations the iteration made and the
loop's exit outcome, if it exits here.  `getattr(obj, "status", obj.update())`
evaluates its default argument `obj.update()` eagerly, before the attribute
lookup: an object without an `update` method raises `AttributeError` at once,
whether or not it has a `status` attribute; an object with one calls
`update()` exactly once, then reads the current status. -/
def pollIter (obj : PollObj) (status : String) (via : Option (List String))
    (timeout : Option Nat) (sleep_time n : Nat) : Nat × Option PollOutcome :=
  if !obj.hasUpdate then (0, some PollOutcome.attributeError)
  else
    let cur := obj.statusAt n
    (1,
      if cur = status then some PollOutcome.success
      else if (match via with | some vs => !(vs.contains cur) | none => false) then
        some (PollOutcome.unexpectedStatus status status)
      else if timeoutHit timeout sleep_time n then some PollOutcome.timedOut
      else none)

/-- The observable result of a terminating `wait_for_status` call: how it
ended, how many loop iterations (samples) ran, and how many `update()`
invocations were made. -/
structure PollResult where
  outcome : PollOutcome
  samples : Nat
  updates : Nat
deriving DecidableEq

/-- The `while True` loop, running at most `fuel` further iterations starting
from iteration index n with u `update()` calls already made; `none` means the
loop is still running after `fuel` iterations. -/
def waitLoop (obj : PollObj) (status : String) (via : Option (List String))
    (timeout : Option Nat) (sleep_time : Nat) : Nat → Nat → Nat → Option PollResult
  | _, _, 0 => none
  | n, u, fuel + 1 =>
    let step := pollIter obj status via timeout sleep_time n
    match step.2 with
    | some o => some ⟨o, n + 1, u + step.1⟩
    | none => waitLoop obj status via timeout sleep_time (n + 1) (u + step.1) fuel

/-- `wait_for_status(obj, status, via, timeout, sleep_time)` observed for the
first `fuel` loop iterations.  The Python defaults are `via=None`,
`timeout=5*60`, `sleep_time=5`. -/
def wait_for_status (obj : PollObj) (status : String) (via : Option (List String))
    (timeout : Option Nat) (sleep_time fuel : Nat) : Option PollResult :=
  waitLoop obj status via timeout sleep_time 0 0 fuel

/-! ## The readiness wait `wait_for_instance_ready` -/

/-- An EC2 instance as `wait_for_instance_ready` sees it: its status-polling
view, whether the j-th connection attempt to port 22 succeeds, and how much
wall time a failed attempt consumes (the socket's `settimeout(sleep_time)`
caps it at `sleep_time`, modelled with `min`). -/
structure InstanceObj where
  poll : PollObj
  connOk : Nat → Bool
  connDur : Nat → Nat

/-- How `wait_for_instance_ready` ends: ready, a status-phase failure
propagated from `wait_for_status`, or the connectivity loop's
`RuntimeError("Operation timed out")`. -/
inductive ReadyOutcome where
  | ready
  | statusError (e : PollOutcome)
  | timedOut
deriving DecidableEq

/-- The ssh-connectivity loop of `wait_for_instance_ready`, with attempt
index j and current wall time t (seconds since the start of
`wait_for_instance_ready`).  On a failed attempt it checks
`time.time() >= max_time` where `max_time` was computed at the start of the
whole function, i.e. the deadline is the timeout itself on this clock; then
it sleeps `sleep_time`.  Returns the outcome and the wall time at exit. -/
def connLoop (inst : InstanceObj) (timeout : Option Nat) (sleep_time : Nat) :
    Nat → Nat → Nat → Option (ReadyOutcome × Nat)
  | _, _, 0 => none
  | j, t, fuel + 1 =>
    if inst.connOk j then some (ReadyOutcome.ready, t)
    else
      let now := t + min (inst.connDur j) sleep_time
      if (match timeout with | some tm => decide (now ≥ tm) | none => false) then
        some (ReadyOutcome.timedOut, now)
      else connLoop inst timeout sleep_time (j + 1) (now + sleep_time) fuel

/-- `wait_for_instance_ready(instance, timeout, sleep_time)`:
`wait_for_status(instance, "running", ["pending"], timeout, sleep_time)`
(which computes its own deadline when it starts — the same instant the outer
`max_time` is computed), then the connectivity loop, which begins at the
wall time the status phase ended: `(samples - 1) * sleep_time`.  A
status-phase failure propagates. -/
def wait_for_instance_ready (inst : InstanceObj) (timeout : Option Nat)
    (sleep_time fuel : Nat) : Option (ReadyOutcome × Nat) :=
  match wait_for_status inst.poll "running" (some ["pending"]) timeout sleep_time fuel with
  | none => none
  | some res =>
    match res.outcome with
    | PollOutcome.success =>
        connLoop inst timeout sleep_time 0 ((res.samples - 1) * sleep_time) fuel
    | e => some (ReadyOutcome.statusError e, (res.samples - 1) * sleep_time)

/-! ## Helper lemmas about the polling loop -/

/-- An iteration that finds the target, or an out-of-transit status, or the
deadline, exits; otherwise the loop continues. -/
theorem pollIter_continue (obj : PollObj) (status : String) (via : Option (List String))
    (timeout : Option Nat) (sleep_time m : Nat)
    (hu : obj.hasUpdate = true) (h1 : obj.statusAt m ≠ status)
    (h2 : ∀ vs, via = some vs → vs.contains (obj.statusAt m) = true)
    (h3 : timeoutHit timeout sleep_time m = false) :
    pollIter obj status via timeout sleep_time m = (1, none) := by
  unfold pollIter
  cases via with
  | none => simp [hu, h1, h3]
  | some vs =>
    have hc : obj.statusAt m ∈ vs := by simpa using h2 vs rfl
    simp [hu, h1, h3, hc]

/-- Running the loop past k continuing iterations. -/
theorem waitLoop_skip (obj : PollObj) (status : String) (via : Option (List String))
    (timeout : Option Nat) (sleep_time : Nat) :
    ∀ (k n u fuel : Nat),
      (∀ m, m < k → pollIter obj status via timeout sleep_time (n + m) = (1, none)) →
      waitLoop obj status via timeout sleep_time n u (k + fuel)
        = waitLoop obj status via timeout sleep_time (n + k) (u + k) fuel := by
  intro k
  induction k with
  | zero => intro n u fuel _; simp
  | succ k ih =>
    intro n u fuel h
    have h0 : pollIter obj status via timeout sleep_time n = (1, none) := by
      have := h 0 (Nat.succ_pos k)
      simpa using this
    have hrest : ∀ m, m < k →
        pollIter obj status via timeout sleep_time (n + 1 + m) = (1, none) := by
      intro m hm
      have := h (m + 1) (by omega)
      rwa [show n + (m + 1) = n + 1 + m from by omega] at this
    have hstep : waitLoop obj status via timeout sleep_time n u (k + 1 + fuel)
        = waitLoop obj status via timeout sleep_time (n + 1) (u + 1) (k + fuel) := by
      rw [show k + 1 + fuel = (k + fuel) + 1 from by omega]
      simp [waitLoop, h0]
    rw [hstep, ih (n + 1) (u + 1) fuel hrest]
    congr 1 <;> omega

/-- A run that continues for k iterations and exits at iteration k. -/
theorem wait_exits (obj : PollObj) (status : String) (via : Option (List String))
    (timeout : Option Nat) (sleep_time k fuel : Nat) (o : PollOutcome)
    (hcont : ∀ m, m < k → pollIter obj status via timeout sleep_time m = (1, none))
    (hexit : pollIter obj status via timeout sleep_time k = (1, some o))
    (hk : k < fuel) :
    wait_for_status obj status via timeout sleep_time fuel = some ⟨o, k + 1, k + 1⟩ := by
  have hf : fuel = k + ((fuel - k - 1) + 1) := by omega
  rw [wait_for_status, hf,
    waitLoop_skip obj status via timeout sleep_time k 0 0 ((fuel - k - 1) + 1)
      (by intro m hm; simpa using hcont m hm)]
  simp [waitLoop, hexit]

/-- Every terminating run with an `update` method makes exactly one
`update()` call per sample. -/
theorem waitLoop_updates_eq (obj : PollObj) (status : String) (via : Option (List String))
    (timeout : Option Nat) (sleep_time : Nat) (hu : obj.hasUpdate = true) :
    ∀ (fuel n u : Nat) (res : PollResult),
      waitLoop obj status via timeout sleep_time n u fuel = some res →
      res.updates + n = res.samples + u ∧ n < res.samples := by
  intro fuel
  induction fuel with
  | zero => intro n u res h; simp [waitLoop] at h
  | succ fuel ih =>
    intro n u res h
    rw [waitLoop] at h
    rcases hsplit : (pollIter obj status via timeout sleep_time n).2 with _ | o
    · rw [hsplit] at h
      have hone : (pollIter obj status via timeout sleep_time n).1 = 1 := by
        unfold pollIter
        simp [hu]
      rw [hone] at h
      have := ih (n + 1) (u + 1) res h
      omega
    · rw [hsplit] at h
      have hone : (pollIter obj status via timeout sleep_time n).1 = 1 := by
        unfold pollIter
        simp [hu]
      rw [hone] at h
      have : res = ⟨o, n + 1, u + 1⟩ := by
        cases h
        rfl
      subst this
      simp
      omega

/-- The `unexpectedStatus` outcome is only ever built with the target status
in both interpolation slots. -/
theorem waitLoop_unexpected_args (obj : PollObj) (status : String)
    (via : Option (List String)) (timeout : Option Nat) (sleep_time : Nat) :
    ∀ (fuel n u : Nat) (res : PollResult),
      waitLoop obj status via timeout sleep_time n u fuel = some res →
      ∀ a b, res.outcome = PollOutcome.unexpectedStatus a b → a = status ∧ b = status := by
  intro fuel
  induction fuel with
  | zero => intro n u res h; simp [waitLoop] at h
  | succ fuel ih =>
    intro n u res h a b hout
    rw [waitLoop] at h
    rcases hsplit : (pollIter obj status via timeout sleep_time n).2 with _ | o
    · rw [hsplit] at h
      exact ih (n + 1) (u + (pollIter obj status via timeout sleep_time n).1)
        res h a b hout
    · rw [hsplit] at h
      have hres : res.outcome = o := by
        cases h
        rfl
      rw [hres] at hout
      subst hout
      unfold pollIter at hsplit
      by_cases hup : obj.hasUpdate
      · simp only [hup, Bool.not_true, Bool.false_eq_true, if_false] at hsplit
        split at hsplit
        · simp at hsplit
        · split at hsplit
          · simp only [Option.some.injEq] at hsplit
            cases hsplit
            exact ⟨rfl, rfl⟩
          · split at hsplit <;> simp at hsplit
      · simp [hup] at hsplit

/-- The connectivity loop reports `timedOut` only once the wall clock —
measured from the start of `wait_for_instance_ready`, not from the start of
the connectivity phase — has reached the timeout. -/
theorem connLoop_timedOut_ge (inst : InstanceObj) (tm sleep_time : Nat) :
    ∀ (fuel j t tEnd : Nat),
      connLoop inst (some tm) sleep_time j t fuel = some (ReadyOutcome.timedOut, tEnd) →
      tEnd ≥ tm := by
  intro fuel
  induction fuel with
  | zero => intro j t tEnd h; simp [connLoop] at h
  | succ fuel ih =>
    intro j t tEnd h
    rw [connLoop] at h
    by_cases hok : inst.connOk j
    · simp [hok] at h
    · simp only [hok, if_false, Bool.false_eq_true] at h
      by_cases hdl : t + min (inst.connDur j) sleep_time ≥ tm
      · simp [hdl] at h
        omega
      · simp only [ge_iff_le, not_le] at hdl
        have hdec : decide (t + min (inst.connDur j) sleep_time ≥ tm) = false := by
          simp
          omega
        simp only [hdec, Bool.false_eq_true, if_false] at h
        exact ih (j + 1) (t + min (inst.connDur j) sleep_time + sleep_time) tEnd h

/-! ## Concrete poll objects for the spec's scenarios -/

/-- Status sequence `pending, pending, running, running, ...`. -/
def objPPR : PollObj :=
  ⟨true, true, fun n => if n = 0 then "pending" else if n = 1 then "pending" else "running"⟩

/-- Status sequence `pending, stopped, stopped, ...`. -/
def objPS : PollObj :=
  ⟨true, true, fun n => if n = 0 then "pending" else "stopped"⟩

/-- Status stuck at `pending` forever. -/
def objPending : PollObj := ⟨true, true, fun _ => "pending"⟩

/-- Status stuck at `shutting-down` forever: a resource whose termination
never resolves. -/
def objStuck : PollObj := ⟨true, true, fun _ => "shutting-down"⟩

theorem objPending_runs_forever :
    ∀ (fuel n u : Nat),
      waitLoop objPending "running" (some ["pending"]) none 5 n u fuel = none := by
  intro fuel
  induction fuel with
  | zero => intro n u; rfl
  | succ fuel ih =>
    intro n u
    have hiter : pollIter objPending "running" (some ["pending"]) none 5 n = (1, none) := by
      apply pollIter_continue
      · rfl
      · simp [objPending]
      · intro vs hvs
        cases hvs
        simp [objPending]
      · rfl
    rw [waitLoop, hiter]
    exact ih (n + 1) (u + 1)

/-! ## Claim theorems -/

/-- **C3.** `wait_for_status` returns success at the first sample equal to
the target; with a transit set, a sample that is neither the target nor in
the set fails at once with the unexpected-status error, this check coming
before the timeout check (the hypotheses place no constraint on the deadline
at the failing sample); the timed-out error is raised at the first sample
taken with the deadline passed; the three concrete scenarios of the spec
behave as stated; and with `timeout=None` the poll never returns at all —
in particular it never raises the timed-out error. -/
theorem claim_C3_wait_for_status_contract :
    (∀ (obj : PollObj) (status : String) (via : Option (List String))
       (timeout : Option Nat) (sleep_time k fuel : Nat),
       obj.hasUpdate = true →
       (∀ m, m < k → obj.statusAt m ≠ status ∧
          (∀ vs, via = some vs → vs.contains (obj.statusAt m) = true) ∧
          timeoutHit timeout sleep_time m = false) →
       obj.statusAt k = status → k < fuel →
       wait_for_status obj status via timeout sleep_time fuel
         = some ⟨PollOutcome.success, k + 1, k + 1⟩)
  ∧ (∀ (obj : PollObj) (status : String) (vs : List String)
       (timeout : Option Nat) (sleep_time k fuel : Nat),
       obj.hasUpdate = true →
       (∀ m, m < k → obj.statusAt m ≠ status ∧ vs.contains (obj.statusAt m) = true ∧
          timeoutHit timeout sleep_time m = false) →
       obj.statusAt k ≠ status → vs.contains (obj.statusAt k) = false → k < fuel →
       wait_for_status obj status (some vs) timeout sleep_time fuel
         = some ⟨PollOutcome.unexpectedStatus status status, k + 1, k + 1⟩)
  ∧ (∀ (obj : PollObj) (status : String) (via : Option (List String))
       (timeout : Option Nat) (sleep_time k fuel : Nat),
       obj.hasUpdate = true →
       (∀ m, m < k → obj.statusAt m ≠ status ∧
          (∀ vs, via = some vs → vs.contains (obj.statusAt m) = true) ∧
          timeoutHit timeout sleep_time m = false) →
       obj.statusAt k ≠ status →
       (∀ vs, via = some vs → vs.contains (obj.statusAt k) = true) →
       timeoutHit timeout sleep_time k = true → k < fuel →
       wait_for_status obj status via timeout sleep_time fuel
         = some ⟨PollOutcome.timedOut, k + 1, k + 1⟩)
  ∧ wait_for_status objPPR "running" (some ["pending"]) (some (5 * 60)) 5 10
      = some ⟨PollOutcome.success, 3, 3⟩
  ∧ wait_for_status objPS "running" (some ["pending"]) (some (5 * 60)) 5 10
      = some ⟨PollOutcome.unexpectedStatus "running" "running", 2, 2⟩
  ∧ wait_for_status objPending "running" (some ["pending"]) (some (5 * 60)) 5 62
      = some ⟨PollOutcome.timedOut, 61, 61⟩
  ∧ (∀ fuel : Nat,
      wait_for_status objPending "running" (some ["pending"]) none 5 fuel = none) := by
  refine ⟨?_, ?_, ?_, ?_, ?_, ?_, ?_⟩
  · intro obj status via timeout sleep_time k fuel hu hcont hk hkf
    apply wait_exits
    · intro m hm
      obtain ⟨h1, h2, h3⟩ := hcont m hm
      exact pollIter_continue obj status via timeout sleep_time m hu h1 h2 h3
    · unfold pollIter
      simp [hu, hk]
    · exact hkf
  · intro obj status vs timeout sleep_time k fuel hu hcont hne hnc hkf
    apply wait_exits
    · intro m hm
      obtain ⟨h1, h2, h3⟩ := hcont m hm
      refine pollIter_continue obj status (some vs) timeout sleep_time m hu h1 ?_ h3
      intro vs' hvs'
      cases hvs'
      exact h2
    · unfold pollIter
      have hnotmem : obj.statusAt k ∉ vs := by
        intro hmem
        have : vs.contains (obj.statusAt k) = true := by simpa using hmem
        rw [this] at hnc
        cases hnc
      simp [hu, hne, hnotmem]
    · exact hkf
  · intro obj status via timeout sleep_time k fuel hu hcont hne hvia htm hkf
    apply wait_exits
    · intro m hm
      obtain ⟨h1, h2, h3⟩ := hcont m hm
      exact pollIter_continue obj status via timeout sleep_time m hu h1 h2 h3
    · unfold pollIter
      cases via with
      | none => simp [hu, hne, htm]
      | some vs =>
        have hc : obj.statusAt k ∈ vs := by simpa using hvia vs rfl
        simp [hu, hne, htm, hc]
    · exact hkf
  · rfl
  · rfl
  · rfl
  · intro fuel
    exact objPending_runs_forever fuel 0 0

/-- Witness for C3: the general success clause applied to the
`pending, pending, running` object at its first `running` sample. -/
theorem claim_C3_witness :
    wait_for_status objPPR "running" (some ["pending"]) (some 300) 5 7
      = some ⟨PollOutcome.success, 3, 3⟩ := by
  apply claim_C3_wait_for_status_contract.1 objPPR "running" (some ["pending"])
      (some 300) 5 2 7 rfl
  · intro m hm
    interval_cases m <;> exact ⟨by decide, by intro vs hvs; cases hvs; decide, by decide⟩
  · rfl
  · omega

/-- **C9.** Each loop iteration of `wait_for_status` makes exactly one
`update()` call when the object has one — whether or not it also has a
`status` attribute — so a terminating run's update count equals its sample
count; and an object without an `update()` method fails with
`AttributeError` on the very first sample, whatever its `status` attribute
and status sequence. -/
theorem claim_C9_unconditional_update :
    (∀ (b : Bool) (seq : Nat → String) (status : String) (via : Option (List String))
       (timeout : Option Nat) (sleep_time n : Nat),
       (pollIter ⟨true, b, seq⟩ status via timeout sleep_time n).1 = 1)
  ∧ (∀ (obj : PollObj) (status : String) (via : Option (List String))
       (timeout : Option Nat) (sleep_time fuel : Nat) (res : PollResult),
       obj.hasUpdate = true →
       wait_for_status obj status via timeout sleep_time fuel = some res →
       res.updates = res.samples)
  ∧ (∀ (b : Bool) (seq : Nat → String) (status : String) (via : Option (List String))
       (timeout : Option Nat) (sleep_time fuel : Nat),
       wait_for_status ⟨false, b, seq⟩ status via timeout sleep_time (fuel + 1)
         = some ⟨PollOutcome.attributeError, 1, 0⟩) := by
  refine ⟨?_, ?_, ?_⟩
  · intro b seq status via timeout sleep_time n
    unfold pollIter
    simp
  · intro obj status via timeout sleep_time fuel res hu h
    have := waitLoop_updates_eq obj status via timeout sleep_time hu fuel 0 0 res h
    omega
  · intro b seq status via timeout sleep_time fuel
    rw [wait_for_status, waitLoop]
    rfl

/-- Witness for C9: a run on an object that has both `update()` and a
`status` attribute makes one update per sample; and an object with a
`status` attribute but no `update()` fails at once. -/
theorem claim_C9_witness :
    (⟨PollOutcome.success, 3, 3⟩ : PollResult).updates
      = (⟨PollOutcome.success, 3, 3⟩ : PollResult).samples
  ∧ wait_for_status ⟨false, true, fun _ => "running"⟩ "running" none (some 300) 5 3
      = some ⟨PollOutcome.attributeError, 1, 0⟩ :=
  ⟨claim_C9_unconditional_update.2.1 objPPR "running" (some ["pending"]) (some 300) 5 9
      ⟨PollOutcome.success, 3, 3⟩ rfl rfl,
   claim_C9_unconditional_update.2.2 false (fun _ => "running") "running" none
      (some 300) 5 2⟩

/-- **C10.** Whenever `wait_for_status` raises the unexpected-status
`RuntimeError`, both the `logger.warn` interpolation slot and the error
message slot carry the *target* status, never the observed out-of-transit
status; concretely, the `pending, stopped` run against target `"running"`
reports `"running"` in both slots while the observed status was
`"stopped"`. -/
theorem claim_C10_unexpected_reports_target :
    (∀ (obj : PollObj) (status : String) (via : Option (List String))
       (timeout : Option Nat) (sleep_time fuel : Nat) (res : PollResult) (a b : String),
       wait_for_status obj status via timeout sleep_time fuel = some res →
       res.outcome = PollOutcome.unexpectedStatus a b → a = status ∧ b = status)
  ∧ wait_for_status objPS "running" (some ["pending"]) (some (5 * 60)) 5 10
      = some ⟨PollOutcome.unexpectedStatus "running" "running", 2, 2⟩
  ∧ objPS.statusAt 1 = "stopped"
  ∧ ("stopped" : String) ≠ "running" := by
  refine ⟨?_, rfl, rfl, by decide⟩
  intro obj status via timeout sleep_time fuel res a b h hout
  exact waitLoop_unexpected_args obj status via timeout sleep_time fuel 0 0 res h a b hout

/-- Witness for C10: the general clause applied to the `pending, stopped`
run: the reported strings are the target status. -/
theorem claim_C10_witness :
    ("running" : String) = "running" ∧ ("running" : String) = "running" :=
  claim_C10_unexpected_reports_target.1 objPS "running" (some ["pending"])
    (some (5 * 60)) 5 10 ⟨PollOutcome.unexpectedStatus "running" "running", 2, 2⟩
    "running" "running" claim_C10_unexpected_reports_target.2.1 rfl

/-- The sort key pins down the kind and vice versa. -/
theorem key_eq_kind (r : Resource) :
    ((sortkey_for_cleanup_ordering r == 0) = (r.kind == ResourceKind.Instance))
  ∧ ((sortkey_for_cleanup_ordering r == 1) = (r.kind == ResourceKind.Volume))
  ∧ ((sortkey_for_cleanup_ordering r == 2) = (r.kind == ResourceKind.Snapshot))
  ∧ ((sortkey_for_cleanup_ordering r == 3) = (r.kind == ResourceKind.Unrecognized)) := by
  obtain ⟨rid, k, ht, hd⟩ := r
  cases k <;> simp [sortkey_for_cleanup_ordering, ordered_classes, List.findIdx?]

/-- **C1.** The list `__exit__` iterates over for destruction is: every
candidate instance first (in registration order), then every candidate
volume, then every candidate snapshot, then every candidate of unrecognized
kind — and unrecognized kinds sort with priority `ordered_classes.length`,
which is 3. -/
theorem claim_C1_teardown_order (c : cleanup_context)
    (exc_typ exc_val exc_tb : Option PyExc) :
    sorted_to_cleanup c exc_typ exc_val exc_tb
      = (to_cleanup c exc_typ exc_val exc_tb).filter
          (fun r => r.kind == ResourceKind.Instance)
      ++ (to_cleanup c exc_typ exc_val exc_tb).filter
          (fun r => r.kind == ResourceKind.Volume)
      ++ (to_cleanup c exc_typ exc_val exc_tb).filter
          (fun r => r.kind == ResourceKind.Snapshot)
      ++ (to_cleanup c exc_typ exc_val exc_tb).filter
          (fun r => r.kind == ResourceKind.Unrecognized)
    ∧ (∀ r : Resource, r.kind = ResourceKind.Unrecognized →
        sortkey_for_cleanup_ordering r = ordered_classes.length)
    ∧ ordered_classes.length = 3 := by
  refine ⟨?_, ?_, rfl⟩
  · have h0 := List.filter_congr
      (fun r _ => (key_eq_kind r).1)
      (l := to_cleanup c exc_typ exc_val exc_tb)
    have h1 := List.filter_congr
      (fun r _ => (key_eq_kind r).2.1)
      (l := to_cleanup c exc_typ exc_val exc_tb)
    have h2 := List.filter_congr
      (fun r _ => (key_eq_kind r).2.2.1)
      (l := to_cleanup c exc_typ exc_val exc_tb)
    have h3 := List.filter_congr
      (fun r _ => (key_eq_kind r).2.2.2)
      (l := to_cleanup c exc_typ exc_val exc_tb)
    rw [sorted_to_cleanup, mergeSort_cleanup_eq, h0, h1, h2, h3]
  · intro r hr
    rw [show ordered_classes.length = 3 from rfl]
    exact sortkey_unrecognized r hr

/-- Witness for C1: a resource of unrecognized kind gets priority
`ordered_classes.length`. -/
theorem claim_C1_witness :
    sortkey_for_cleanup_ordering ⟨9, ResourceKind.Unrecognized, false, false⟩
      = ordered_classes.length :=
  (claim_C1_teardown_order cleanup_context.new none none none).2.1
    ⟨9, ResourceKind.Unrecognized, false, false⟩ rfl

/-- **C2.** A registered entry is a destruction candidate on a success exit
(all three of `exc_typ`, `exc_val`, `exc_tb` absent) exactly when its
`keep_on_success` flag is false, and on a failure exit exactly when its
`keep_on_error` flag is false; in particular `keep_on_success=True` protects
an entry on success but not on failure, and `keep_on_error=True` protects it
on failure but not on success. -/
theorem claim_C2_candidate_selection :
    (∀ (c : cleanup_context) (exc_typ exc_val exc_tb : Option PyExc) (r : Resource),
       isSuccessExit exc_typ exc_val exc_tb = true →
       (r ∈ to_cleanup c exc_typ exc_val exc_tb ↔
         ∃ kos koe, (r, kos, koe) ∈ c.resources ∧ kos = false))
  ∧ (∀ (c : cleanup_context) (exc_typ exc_val exc_tb : Option PyExc) (r : Resource),
       isSuccessExit exc_typ exc_val exc_tb = false →
       (r ∈ to_cleanup c exc_typ exc_val exc_tb ↔
         ∃ kos koe, (r, kos, koe) ∈ c.resources ∧ koe = false))
  ∧ (∀ (r : Resource) (e : PyExc),
       to_cleanup ((cleanup_context.new).add r true false) none none none = []
     ∧ to_cleanup ((cleanup_context.new).add r true false) (some e) (some e) (some e) = [r]
     ∧ to_cleanup ((cleanup_context.new).add r false true) (some e) (some e) (some e) = []
     ∧ to_cleanup ((cleanup_context.new).add r false true) none none none = [r]) := by
  refine ⟨?_, ?_, ?_⟩
  · intro c exc_typ exc_val exc_tb r hs
    rw [to_cleanup, if_pos hs]
    simp only [List.mem_map, List.mem_filter]
    constructor
    · rintro ⟨⟨r', kos, koe⟩, ⟨hmem, hflag⟩, rfl⟩
      refine ⟨kos, koe, hmem, ?_⟩
      simpa using hflag
    · rintro ⟨kos, koe, hmem, hflag⟩
      exact ⟨(r, kos, koe), ⟨hmem, by simp [hflag]⟩, rfl⟩
  · intro c exc_typ exc_val exc_tb r hs
    rw [to_cleanup, if_neg (by simp [hs])]
    simp only [List.mem_map, List.mem_filter]
    constructor
    · rintro ⟨⟨r', kos, koe⟩, ⟨hmem, hflag⟩, rfl⟩
      refine ⟨kos, koe, hmem, ?_⟩
      simpa using hflag
    · rintro ⟨kos, koe, hmem, hflag⟩
      exact ⟨(r, kos, koe), ⟨hmem, by simp [hflag]⟩, rfl⟩
  · intro r e
    exact ⟨rfl, rfl, rfl, rfl⟩

/-- Witness for C2: on the one-entry ledger registered with
`keep_on_success=True`, a success exit destroys nothing and a failure exit
destroys the entry. -/
theorem claim_C2_witness :
    (⟨0, ResourceKind.Instance, true, false⟩ : Resource) ∈
      to_cleanup ((cleanup_context.new).add ⟨0, ResourceKind.Instance, true, false⟩ true false)
        (some (PyExc.mk 0)) (some (PyExc.mk 0)) (some (PyExc.mk 0))
  ∧ ¬ (⟨0, ResourceKind.Instance, true, false⟩ : Resource) ∈
      to_cleanup ((cleanup_context.new).add ⟨0, ResourceKind.Instance, true, false⟩ true false)
        none none none := by
  constructor
  · exact (claim_C2_candidate_selection.2.1
      ((cleanup_context.new).add ⟨0, ResourceKind.Instance, true, false⟩ true false)
      (some (PyExc.mk 0)) (some (PyExc.mk 0)) (some (PyExc.mk 0))
      ⟨0, ResourceKind.Instance, true, false⟩ rfl).mpr
      ⟨true, false, by simp [cleanup_context.new, cleanup_context.add], rfl⟩
  · intro hmem
    obtain ⟨kos, koe, hin, hflag⟩ := (claim_C2_candidate_selection.1
      ((cleanup_context.new).add ⟨0, ResourceKind.Instance, true, false⟩ true false)
      none none none ⟨0, ResourceKind.Instance, true, false⟩ rfl).mp hmem
    simp [cleanup_context.new, cleanup_context.add] at hin
    rw [hin.1] at hflag
    cases hflag

/-- The per-candidate body of `__exit__`'s destruction loop: the calls
`_cleanup_resource` makes, followed by the `logger.exception` record when it
raised. -/
def exitBody (o : DestroyOracle) (r : Resource) : List Event :=
  (cleanup_resource_run o r).1
    ++ if (cleanup_resource_run o r).2 then [Event.logExceptionEvt r.rid] else []

theorem cleanup_exit_events (c : cleanup_context) (exc_typ exc_val exc_tb : Option PyExc)
    (o : DestroyOracle) :
    (cleanup_exit c exc_typ exc_val exc_tb o).events
      = (sorted_to_cleanup c exc_typ exc_val exc_tb).flatMap (exitBody o) := rfl

/-- With no destruction call raising, `_cleanup_resource` never raises. -/
theorem cleanup_resource_run_noFail (r : Resource) :
    (cleanup_resource_run noFail r).2 = false := by
  obtain ⟨rid, k, ht, hd⟩ := r
  cases ht <;> cases hd <;> simp [cleanup_resource_run, noFail]

/-- **C6.** `__exit__` never suppresses the triggering exception (it returns
`None`), and every candidate's destruction is attempted whatever the others
do: each candidate's full call trace appears, in order, in the exit trace,
and when its destruction raised, the exception is logged — under an
arbitrary oracle of destruction failures, so a failure on one candidate
removes no other candidate's attempt. -/
theorem claim_C6_best_effort (c : cleanup_context)
    (exc_typ exc_val exc_tb : Option PyExc) (o : DestroyOracle) :
    (cleanup_exit c exc_typ exc_val exc_tb o).suppressException = false
  ∧ ∀ r, r ∈ sorted_to_cleanup c exc_typ exc_val exc_tb →
      List.Sublist (cleanup_resource_run o r).1
        (cleanup_exit c exc_typ exc_val exc_tb o).events
    ∧ ((cleanup_resource_run o r).2 = true →
        Event.logExceptionEvt r.rid ∈ (cleanup_exit c exc_typ exc_val exc_tb o).events) := by
  refine ⟨rfl, ?_⟩
  intro r hr
  obtain ⟨s, t, hst⟩ := List.append_of_mem hr
  rw [cleanup_exit_events, hst, List.flatMap_append s (r :: t) (exitBody o),
    List.flatMap_cons r t (exitBody o)]
  constructor
  · have h1 : List.Sublist (cleanup_resource_run o r).1 (exitBody o r) := by
      rw [exitBody]
      exact List.sublist_append_left _ _
    have h2 : List.Sublist (exitBody o r) (exitBody o r ++ t.flatMap (exitBody o)) :=
      List.sublist_append_left _ _
    exact (h1.trans h2).trans (List.sublist_append_right _ _)
  · intro hraise
    have hmem : Event.logExceptionEvt r.rid ∈ exitBody o r := by
      rw [exitBody, hraise]
      simp
    rw [List.mem_append, List.mem_append]
    exact Or.inr (Or.inl hmem)

/-- Witness for C6: a volume whose `delete` raises is logged, and a volume
registered after it is still destroyed. -/
theorem claim_C6_witness :
    List.Sublist
      (cleanup_resource_run ⟨fun _ => false, fun _ => false, fun i => i == 1⟩
        ⟨2, ResourceKind.Volume, false, true⟩).1
      (cleanup_exit ⟨[(⟨1, ResourceKind.Volume, false, true⟩, false, false),
                      (⟨2, ResourceKind.Volume, false, true⟩, false, false)]⟩
        none none none ⟨fun _ => false, fun _ => false, fun i => i == 1⟩).events
  ∧ Event.logExceptionEvt 1 ∈
      (cleanup_exit ⟨[(⟨1, ResourceKind.Volume, false, true⟩, false, false),
                      (⟨2, ResourceKind.Volume, false, true⟩, false, false)]⟩
        none none none ⟨fun _ => false, fun _ => false, fun i => i == 1⟩).events := by
  have h := claim_C6_best_effort
    ⟨[(⟨1, ResourceKind.Volume, false, true⟩, false, false),
      (⟨2, ResourceKind.Volume, false, true⟩, false, false)]⟩
    none none none ⟨fun _ => false, fun _ => false, fun i => i == 1⟩
  have hm2 : (⟨2, ResourceKind.Volume, false, true⟩ : Resource) ∈
      sorted_to_cleanup ⟨[(⟨1, ResourceKind.Volume, false, true⟩, false, false),
        (⟨2, ResourceKind.Volume, false, true⟩, false, false)]⟩ none none none := by
    rw [sorted_to_cleanup]
    exact List.mem_mergeSort.mpr (by decide)
  have hm1 : (⟨1, ResourceKind.Volume, false, true⟩ : Resource) ∈
      sorted_to_cleanup ⟨[(⟨1, ResourceKind.Volume, false, true⟩, false, false),
        (⟨2, ResourceKind.Volume, false, true⟩, false, false)]⟩ none none none := by
    rw [sorted_to_cleanup]
    exact List.mem_mergeSort.mpr (by decide)
  exact ⟨(h.2 ⟨2, ResourceKind.Volume, false, true⟩ hm2).1,
    (h.2 ⟨1, ResourceKind.Volume, false, true⟩ hm1).2 (by decide)⟩

/-- **C7.** Destruction dispatches on the capabilities the resource exposes:
only `delete` — exactly one `delete` call and nothing else; both —
`terminate`, then the poll for `"terminated"`, then `delete`; neither — no
calls at all.  The last clause ties the per-resource trace to the full exit
trace of a one-entry ledger. -/
theorem claim_C7_capability_dispatch (r : Resource) (o : DestroyOracle) :
    (r.hasTerminate = false → r.hasDelete = true →
      (cleanup_resource_run o r).1 = [Event.deleteCall r.rid])
  ∧ (r.hasTerminate = true → o.terminateRaises r.rid = false →
      o.waitRaises r.rid = false → r.hasDelete = true →
      (cleanup_resource_run o r).1
        = [Event.terminateCall r.rid,
           Event.waitCall r.rid "terminated" none (some (5 * 60)) 5,
           Event.deleteCall r.rid])
  ∧ (r.hasTerminate = false → r.hasDelete = false → (cleanup_resource_run o r).1 = [])
  ∧ (∀ exc_typ exc_val exc_tb : Option PyExc,
      (cleanup_exit ((cleanup_context.new).add r false false) exc_typ exc_val exc_tb o).events
        = exitBody o r) := by
  refine ⟨?_, ?_, ?_, ?_⟩
  · intro h1 h2
    simp [cleanup_resource_run, h1, h2]
  · intro h1 h2 h3 h4
    simp [cleanup_resource_run, h1, h2, h3, h4]
  · intro h1 h2
    simp [cleanup_resource_run, h1, h2]
  · intro exc_typ exc_val exc_tb
    have hto : to_cleanup ((cleanup_context.new).add r false false) exc_typ exc_val exc_tb
        = [r] := by
      unfold to_cleanup
      split <;> rfl
    rw [cleanup_exit_events, sorted_to_cleanup, hto, List.mergeSort_singleton r,
      List.flatMap_cons r [] (exitBody o)]
    simp

/-- Witness for C7: the three capability shapes at concrete resources. -/
theorem claim_C7_witness :
    (cleanup_resource_run noFail ⟨4, ResourceKind.Snapshot, false, true⟩).1
      = [Event.deleteCall 4]
  ∧ (cleanup_resource_run noFail ⟨5, ResourceKind.Instance, true, true⟩).1
      = [Event.terminateCall 5,
         Event.waitCall 5 "terminated" none (some (5 * 60)) 5,
         Event.deleteCall 5]
  ∧ (cleanup_resource_run noFail ⟨6, ResourceKind.Unrecognized, false, false⟩).1 = [] :=
  ⟨(claim_C7_capability_dispatch ⟨4, ResourceKind.Snapshot, false, true⟩ noFail).1 rfl rfl,
   (claim_C7_capability_dispatch ⟨5, ResourceKind.Instance, true, true⟩ noFail).2.1
     rfl rfl rfl rfl,
   (claim_C7_capability_dispatch ⟨6, ResourceKind.Unrecognized, false, false⟩ noFail).2.2.1
     rfl rfl⟩

/-- A sequence of `add` calls, one per list element. -/
def registerAll (c : cleanup_context) (xs : List (Resource × Bool × Bool)) :
    cleanup_context :=
  xs.foldl (fun acc e => acc.add e.1 e.2.1 e.2.2) c

/-- **C8.** Any sequence of `add` calls appends exactly its entries, in
call order, to the ledger — so `add` never deduplicates and never mutates
earlier entries; a resource registered twice is selected twice and its
destruction attempted twice at exit. -/
theorem claim_C8_register_appends :
    (∀ (c : cleanup_context) (xs : List (Resource × Bool × Bool)),
       (registerAll c xs).resources = c.resources ++ xs)
  ∧ (∀ r : Resource,
       to_cleanup (registerAll cleanup_context.new [(r, false, false), (r, false, false)])
         none none none = [r, r]
     ∧ (cleanup_exit (registerAll cleanup_context.new [(r, false, false), (r, false, false)])
          none none none noFail).events
         = (cleanup_resource_run noFail r).1 ++ (cleanup_resource_run noFail r).1) := by
  constructor
  · intro c xs
    induction xs generalizing c with
    | nil => simp [registerAll]
    | cons e xs ih =>
      rw [registerAll, List.foldl_cons]
      have := ih (c.add e.1 e.2.1 e.2.2)
      rw [registerAll] at this
      rw [this, cleanup_context.add]
      simp
  · intro r
    constructor
    · rfl
    · have hto : to_cleanup (registerAll cleanup_context.new
          [(r, false, false), (r, false, false)]) none none none = [r, r] := rfl
      have hsorted : List.mergeSort [r, r] cleanupLE = [r, r] :=
        List.mergeSort_of_sorted (by simp [cleanupLE])
      rw [cleanup_exit_events, sorted_to_cleanup, hto, hsorted,
        List.flatMap_cons r [r] (exitBody noFail),
        List.flatMap_cons r [] (exitBody noFail)]
      rw [exitBody, cleanup_resource_run_noFail r]
      simp

/-! ## C4: the teardown poll's timeout -/

/-- **C4, counterexample.**  The claim says the teardown poll for
`"terminated"` has *no timeout bound* and never raises the timed-out error.
In the code, `_cleanup_resource` calls `wait_for_status(resource,
"terminated")`, which fills in the *default* `timeout=5*60`: the trace of
tearing down a terminable resource carries `some (5*60)`, not `none`, and
`wait_for_status` with exactly those arguments on a resource stuck at
`"shutting-down"` raises the timed-out error at its 61st sample. -/
theorem claim_C4_counterexample :
    (cleanup_resource_run noFail ⟨7, ResourceKind.Instance, true, false⟩).1
      = [Event.terminateCall 7, Event.waitCall 7 "terminated" none (some (5 * 60)) 5]
  ∧ (some (5 * 60) : Option Nat) ≠ none
  ∧ wait_for_status objStuck "terminated" none (some (5 * 60)) 5 61
      = some ⟨PollOutcome.timedOut, 61, 61⟩ :=
  ⟨rfl, by simp, rfl⟩

/-- **C4, amended.**  During teardown of a resource exposing `terminate`,
the subsequent poll for `"terminated"` is made with `wait_for_status`'s
default timeout of 5*60 seconds and default 5-second interval (and no
transit set); a resource whose status never becomes `"terminated"` does not
block cleanup indefinitely — the poll raises the timed-out error at the 61st
sample, once 300 seconds have elapsed. -/
theorem claim_C4_teardown_poll_default_timeout :
    (∀ (r : Resource) (o : DestroyOracle), r.hasTerminate = true →
       o.terminateRaises r.rid = false →
       Event.waitCall r.rid "terminated" none (some (5 * 60)) 5
         ∈ (cleanup_resource_run o r).1)
  ∧ (∀ obj : PollObj, obj.hasUpdate = true →
       (∀ n, n ≤ 60 → obj.statusAt n ≠ "terminated") →
       wait_for_status obj "terminated" none (some (5 * 60)) 5 61
         = some ⟨PollOutcome.timedOut, 61, 61⟩) := by
  constructor
  · intro r o h1 h2
    by_cases hw : o.waitRaises r.rid <;> by_cases hd : r.hasDelete
      <;> simp [cleanup_resource_run, h1, h2, hw, hd]
  · intro obj hu hstuck
    apply wait_exits
    · intro m hm
      apply pollIter_continue obj "terminated" none (some (5 * 60)) 5 m hu
        (hstuck m (by omega))
      · intro vs hvs
        exact Option.noConfusion hvs
      · simp only [timeoutHit, ge_iff_le, decide_eq_false_iff_not, not_le]
        omega
    · unfold pollIter
      have hne := hstuck 60 (by omega)
      have htm : timeoutHit (some (5 * 60)) 5 60 = true := by
        simp [timeoutHit]
      simp [hu, hne, htm]
    · omega

/-- Witness for C4: the stuck instance of the counterexample discharges both
clauses of the amended statement. -/
theorem claim_C4_witness :
    Event.waitCall 7 "terminated" none (some (5 * 60)) 5
      ∈ (cleanup_resource_run noFail ⟨7, ResourceKind.Instance, true, false⟩).1
  ∧ wait_for_status objStuck "terminated" none (some (5 * 60)) 5 61
      = some ⟨PollOutcome.timedOut, 61, 61⟩ :=
  ⟨claim_C4_teardown_poll_default_timeout.1 ⟨7, ResourceKind.Instance, true, false⟩
      noFail rfl rfl,
   claim_C4_teardown_poll_default_timeout.2 objStuck rfl
     (fun n _ => by
       show ("shutting-down" : String) ≠ "terminated"
       decide)⟩

/-! ## C5: the readiness wait's two phases and their deadline -/

/-- An instance whose status needs one extra poll (5 seconds) to become
`"running"` and whose port 22 never accepts connections (each refusal is
instantaneous). -/
def readySlowStatusInst : InstanceObj :=
  ⟨⟨true, true, fun n => if n = 0 then "pending" else "running"⟩,
   fun _ => false, fun _ => 0⟩

/-- An instance whose status is `"running"` on the very first sample and
whose port 22 never accepts connections. -/
def readyImmediateInst : InstanceObj :=
  ⟨⟨true, true, fun _ => "running"⟩, fun _ => false, fun _ => 0⟩

/-- **C5, counterexample.**  The claim says each phase of
`wait_for_instance_ready` gets its own full timeout budget measured from
that phase's start.  With `timeout=10, sleep_time=5`, a status phase that
resolves on its second sample (at wall time 5) and a dead port, the wait
times out at wall time 10 — only 5 seconds into the connectivity phase,
short of the full 10-second budget the claim grants that phase: the
connectivity loop checks the deadline computed at the start of the whole
call, so the status phase's 5 seconds were deducted from it. -/
theorem claim_C5_counterexample :
    wait_for_status readySlowStatusInst.poll "running" (some ["pending"]) (some 10) 5 10
      = some ⟨PollOutcome.success, 2, 2⟩
  ∧ wait_for_instance_ready readySlowStatusInst (some 10) 5 10
      = some (ReadyOutcome.timedOut, 10)
  ∧ 10 - (2 - 1) * 5 < 10 :=
  ⟨rfl, rfl, by decide⟩

/-- **C5, amended.**  The status phase and the connectivity phase share the
deadline computed at the start of `wait_for_instance_ready` (the status
phase computes its own deadline inside `wait_for_status`, at the same
instant): a timed-out readiness wait has always consumed at least the whole
timeout measured from the overall start — not from the connectivity phase's
start; when the status resolves on the very first sample (taking no time),
the connectivity phase effectively has the full budget, and a dead port
fails with the timed-out error once the budget elapses. -/
theorem claim_C5_shared_deadline :
    (∀ (inst : InstanceObj) (tm sleep_time fuel tEnd : Nat),
       wait_for_instance_ready inst (some tm) sleep_time fuel
         = some (ReadyOutcome.timedOut, tEnd) →
       tEnd ≥ tm)
  ∧ wait_for_instance_ready readyImmediateInst (some 10) 5 10
      = some (ReadyOutcome.timedOut, 10) := by
  constructor
  · intro inst tm sleep_time fuel tEnd h
    rw [wait_for_instance_ready] at h
    rcases hw : wait_for_status inst.poll "running" (some ["pending"]) (some tm)
        sleep_time fuel with _ | res
    · rw [hw] at h
      cases h
    · rw [hw] at h
      rcases res with ⟨outcome, ns, nu⟩
      cases outcome with
      | success =>
        exact connLoop_timedOut_ge inst tm sleep_time fuel 0 ((ns - 1) * sleep_time) tEnd h
      | unexpectedStatus a b => simp at h
      | timedOut => simp at h
      | attributeError => simp at h
  · rfl

/-- Witness for C5: the immediate-status instance discharges the general
clause: its timed-out exit time 10 is at least the budget 10. -/
theorem claim_C5_witness : (10 : Nat) ≥ 10 :=
  claim_C5_shared_deadline.1 readyImmediateInst 10 5 10 10
    claim_C5_shared_deadline.2

end Mozsvcdeploy

